import Mathlib

/-
  Verification of the CryptoVault storage/crypto engine (main.py) and the
  synchronization engine (sync.py) against the natural-language design
  specification.  The Python code is shallowly embedded: file-system
  collections become string-keyed association lists, the cryptographic
  primitives (PBKDF2 key derivation, Fernet authenticated encryption) are
  modelled by their deterministic contracts, and randomness (salts, file
  ids, timestamps) is passed in explicitly.
-/

namespace CryptoVault

/-- Abstract byte string (file content, ciphertext payload). -/
abbrev Bytes := List Nat

/-- First-match lookup in a string-keyed association list.  Models reading the
file stored under a given name in a directory. -/
def findEntry {β : Type} (k : String) : List (String × β) → Option β
  | [] => none
  | (k', v) :: rest => if k' = k then some v else findEntry k rest

/-- Overwriting write in a string-keyed association list.  Models writing the
file stored under a given name (cons plus first-match lookup gives
overwrite semantics). -/
def putEntry {β : Type} (k : String) (v : β) (l : List (String × β)) :
    List (String × β) :=
  (k, v) :: l

/-- Removal of a file from a directory: drops every binding of the key. -/
def eraseEntry {β : Type} (k : String) (l : List (String × β)) :
    List (String × β) :=
  l.filter fun p => decide (p.1 ≠ k)

/-- A symmetric key as produced by PBKDF2-HMAC-SHA-256: deterministic in the
password and salt, and (idealizing the KDF as collision-free) determined
exactly by that pair, so the pair itself serves as the model of the key. -/
structure Key where
  password : String
  salt : Nat
deriving DecidableEq, Repr

/-- The generate_key method of main.py: derives the key from the password and
a salt.  In the code a fresh random 16-byte salt is drawn when none is
supplied; here the caller always passes the salt explicitly, which covers
both the fresh-salt path (encrypt) and the stored-salt path (decrypt). -/
def generate_key (password : String) (salt : Nat) : Key × Nat :=
  (⟨password, salt⟩, salt)

/-- A Fernet token: authenticated encryption.  The token determines the key it
was produced under and the plaintext; the intact flag records whether the
token still carries a valid authentication tag (any bit-flip or truncation
clears it). -/
structure Ciphertext where
  key : Key
  payload : Bytes
  intact : Bool
deriving DecidableEq, Repr

/-- Fernet encryption: produces an intact token bound to the key. -/
def fernetEncrypt (k : Key) (d : Bytes) : Ciphertext :=
  ⟨k, d, true⟩

/-- Fernet decryption: succeeds exactly when the token is intact and was
produced under the same key; otherwise it raises InvalidToken, modelled as
none. -/
def fernetDecrypt (k : Key) (c : Ciphertext) : Option Bytes :=
  if c.intact ∧ c.key = k then some c.payload else none

/-- Tampering with a stored ciphertext blob: the payload may be anything, but
the authentication tag no longer verifies. -/
def corrupt (c : Ciphertext) : Ciphertext :=
  { c with intact := false }

/-- Base64 transport encoding of the salt, used by save_metadata and undone by
decrypt_file.  Since b64decode after b64encode is the identity, the
encoding is modelled as the identity on abstract salts. -/
def b64encode (salt : Nat) : Nat := salt

/-- Base64 decoding of a stored salt. -/
def b64decode (s : Nat) : Nat := s

/-- Content of a metadata file: either the well-formed record that
save_metadata writes (the str() of a Python dict with the five fields), or
arbitrary other text placed there by anything else. -/
inductive MetaContent
  | record (original_path original_filename timestamp : String)
      (saltB64 : Nat) (size : Nat)
  | other (payload : String)
deriving DecidableEq, Repr

/-- Outcome of the eval call that main.py uses to load a metadata file: a
well-formed dict literal evaluates back to the record, while any other
content is executed as Python code. -/
inductive EvalResult
  | value (original_path original_filename timestamp : String)
      (saltB64 : Nat) (size : Nat)
  | executed (payload : String)
deriving DecidableEq, Repr

/-- How main.py (decrypt_file and list_files) loads a metadata record: it
applies eval to the raw file content. -/
def eval_metadata : MetaContent → EvalResult
  | .record op ofn ts s z => .value op ofn ts s z
  | .other p => .executed p

/-- Outcome of the metadata loader that the specification requires. -/
inductive SpecLoadResult
  | loaded (original_path original_filename timestamp : String)
      (saltB64 : Nat) (size : Nat)
  | corruptMetadata
deriving DecidableEq, Repr

/-- Modelled from the spec: the required safe structured loader, absent from
the code.  It parses a record against the fixed schema and fails with
CorruptMetadata on any malformed or unexpected content, never executing
it. -/
def load_metadata_spec : MetaContent → SpecLoadResult
  | .record op ofn ts s z => .loaded op ofn ts s z
  | .other _ => .corruptMetadata

/-- The exceptions that CryptoVault operations raise.  arbitraryExecution is
not a Python exception: it marks the outcome in which eval ran the loaded
metadata content as code. -/
inductive VaultError
  | fileNotFound
  | invalidOrCorrupted
  | arbitraryExecution (payload : String)
deriving DecidableEq, Repr

/-- The on-disk state a CryptoVault instance operates on: the ciphertext blob
collection and metadata collection inside the vault, and the external file
system (plaintext inputs and decrypted outputs), all keyed by path/id. -/
structure VaultState where
  files : List (String × Ciphertext)
  metadata : List (String × MetaContent)
  disk : List (String × Bytes)
deriving DecidableEq, Repr

/-- The basename of a path, as os.path.basename on a slash-separated path. -/
def basename (p : String) : String :=
  (p.splitOn "/").getLastD ""

/-- The encrypt_file method of main.py.  The randomly generated file id and
salt and the current timestamp are passed in explicitly.  Reads the input
file (FileNotFoundError if absent), derives a fresh key, Fernet-encrypts,
writes the blob under the id, then writes the metadata record (with the
base64-encoded salt and the file size) under the same id. -/
def encrypt_file (st : VaultState) (file_path password : String)
    (file_id : String) (salt : Nat) (timestamp : String) :
    VaultState × Except VaultError String :=
  match findEntry file_path st.disk with
  | none => (st, .error .fileNotFound)
  | some data =>
    let kp := generate_key password salt
    let encrypted_data := fernetEncrypt kp.1 data
    let meta : MetaContent :=
      .record file_path (basename file_path) timestamp (b64encode kp.2)
        data.length
    ({ st with
        files := putEntry file_id encrypted_data st.files,
        metadata := putEntry file_id meta st.metadata },
      .ok file_id)

/-- The decrypt_file method of main.py.  Fails FileNotFoundError unless both
the blob and the metadata record are present; loads the metadata via eval;
re-derives the key from the supplied password and the stored salt; Fernet
decrypts, mapping any failure to the single ValueError with message
Invalid password or corrupted file, before anything is written; on success
writes the plaintext to the explicit output path or else to the recorded
original path, and returns the path written. -/
def decrypt_file (st : VaultState) (file_id password : String)
    (output_path : Option String) :
    VaultState × Except VaultError String :=
  match findEntry file_id st.files, findEntry file_id st.metadata with
  | some encrypted_data, some mc =>
    match eval_metadata mc with
    | .executed p => (st, .error (.arbitraryExecution p))
    | .value original_path _ _ saltB64 _ =>
      let kp := generate_key password (b64decode saltB64)
      match fernetDecrypt kp.1 encrypted_data with
      | none => (st, .error .invalidOrCorrupted)
      | some decrypted_data =>
        let out := output_path.getD original_path
        ({ st with disk := putEntry out decrypted_data st.disk }, .ok out)
  | _, _ => (st, .error .fileNotFound)

/-- The delete_file method of main.py: FileNotFoundError unless both the blob
and the metadata record are present; otherwise both are removed. -/
def delete_file (st : VaultState) (file_id : String) :
    VaultState × Except VaultError Unit :=
  match findEntry file_id st.files, findEntry file_id st.metadata with
  | some _, some _ =>
    ({ st with
        files := eraseEntry file_id st.files,
        metadata := eraseEntry file_id st.metadata },
      .ok ())
  | _, _ => (st, .error .fileNotFound)

/-- One entry of the list_files result. -/
structure FileSummary where
  id : String
  filename : String
  timestamp : String
  size : Nat
deriving DecidableEq, Repr

/-- The enumeration loop of list_files: loads each metadata record via eval
and collects the summaries. -/
def list_files_go : List (String × MetaContent) →
    Except VaultError (List FileSummary)
  | [] => .ok []
  | (fid, mc) :: rest =>
    match eval_metadata mc with
    | .executed p => .error (.arbitraryExecution p)
    | .value _ ofn ts _ z =>
      match list_files_go rest with
      | .ok l => .ok (⟨fid, ofn, ts, z⟩ :: l)
      | .error e => .error e

/-- The list_files method of main.py. -/
def list_files (st : VaultState) : Except VaultError (List FileSummary) :=
  list_files_go st.metadata

theorem findEntry_putEntry_same {β : Type} (k : String) (v : β)
    (l : List (String × β)) : findEntry k (putEntry k v l) = some v := by
  simp [findEntry, putEntry]

theorem findEntry_eraseEntry_same {β : Type} (k : String)
    (l : List (String × β)) : findEntry k (eraseEntry k l) = none := by
  induction l with
  | nil => rfl
  | cons hd tl ih =>
    by_cases h : hd.1 = k
    · simpa [eraseEntry, h] using ih
    · simpa [eraseEntry, findEntry, h] using ih

/-- Claim C1: for every file present on disk and every password, decrypting
the id returned by encrypt_file with the same password succeeds and writes
back exactly the original bytes (at the recorded original path, since no
output path is supplied). -/
theorem c1_encrypt_decrypt_roundtrip
    (st : VaultState) (file_path password file_id ts : String) (salt : Nat)
    (data : Bytes) (hdisk : findEntry file_path st.disk = some data) :
    (encrypt_file st file_path password file_id salt ts).2 = .ok file_id ∧
    (decrypt_file (encrypt_file st file_path password file_id salt ts).1
        file_id password none).2 = .ok file_path ∧
    findEntry file_path
      (decrypt_file (encrypt_file st file_path password file_id salt ts).1
        file_id password none).1.disk = some data := by
  simp only [encrypt_file, hdisk]
  refine ⟨trivial, ?_, ?_⟩ <;>
    simp [decrypt_file, findEntry_putEntry_same, eval_metadata, generate_key,
      fernetDecrypt, fernetEncrypt, b64encode, b64decode,
      findEntry_putEntry_same]

/-- Witness for C1 at a concrete vault state, file, and password. -/
theorem c1_witness :
    findEntry "docs/a.txt"
        (VaultState.mk [] [] [("docs/a.txt", [104, 105])]).disk =
      some [104, 105] ∧
    (decrypt_file
        (encrypt_file (VaultState.mk [] [] [("docs/a.txt", [104, 105])])
          "docs/a.txt" "pw" "id1" 7 "t0").1 "id1" "pw" none).2 =
      .ok "docs/a.txt" :=
  ⟨by decide,
    (c1_encrypt_decrypt_roundtrip
      (VaultState.mk [] [] [("docs/a.txt", [104, 105])])
      "docs/a.txt" "pw" "id1" "t0" 7 [104, 105] (by decide)).2.1⟩

/-- The vault state after an encrypt_file call (the updated collections). -/
def after_encrypt (st : VaultState) (file_path password file_id ts : String)
    (salt : Nat) : VaultState :=
  (encrypt_file st file_path password file_id salt ts).1

/-- Tampering with the stored blob of a file id: the ciphertext under the id
is replaced by a corrupted copy whose authentication no longer verifies. -/
def with_corrupted_blob (st : VaultState) (file_id : String) : VaultState :=
  match findEntry file_id st.files with
  | some c => { st with files := putEntry file_id (corrupt c) st.files }
  | none => st

/-- Claim C3: over an honestly stored pair, decrypting with a wrong password
and decrypting a tampered blob with the right password both fail with the
single error invalidOrCorrupted (the one ValueError of decrypt_file), so
the two causes are not distinguished, and in both cases the state is
returned unchanged, so no output file is written. -/
theorem c3_auth_failure_indistinguishable_no_output
    (st : VaultState) (file_path password password' file_id ts : String)
    (salt : Nat) (data : Bytes)
    (hdisk : findEntry file_path st.disk = some data)
    (hpw : password' ≠ password) :
    decrypt_file (after_encrypt st file_path password file_id ts salt)
        file_id password' none =
      (after_encrypt st file_path password file_id ts salt,
        .error .invalidOrCorrupted) ∧
    decrypt_file
        (with_corrupted_blob (after_encrypt st file_path password file_id ts salt)
          file_id) file_id password none =
      (with_corrupted_blob (after_encrypt st file_path password file_id ts salt)
          file_id,
        .error .invalidOrCorrupted) := by
  constructor <;>
    simp [after_encrypt, encrypt_file, hdisk, with_corrupted_blob,
      decrypt_file, findEntry_putEntry_same, eval_metadata, generate_key,
      fernetDecrypt, fernetEncrypt, corrupt, b64encode, b64decode,
      Ne.symm hpw]

/-- Witness for C3 at a concrete state, password pair, and file. -/
theorem c3_witness :
    findEntry "f.bin" (VaultState.mk [] [] [("f.bin", [9])]).disk =
        some [9] ∧
    ("bad" : String) ≠ "good" ∧
    decrypt_file
        (after_encrypt (VaultState.mk [] [] [("f.bin", [9])])
          "f.bin" "good" "idw" "t1" 5) "idw" "bad" none =
      (after_encrypt (VaultState.mk [] [] [("f.bin", [9])])
          "f.bin" "good" "idw" "t1" 5,
        .error .invalidOrCorrupted) :=
  ⟨by decide, by decide,
    (c3_auth_failure_indistinguishable_no_output
      (VaultState.mk [] [] [("f.bin", [9])]) "f.bin" "good" "bad" "idw" "t1"
      5 [9] (by decide) (by decide)).1⟩

/-- A metadata payload that is not a record written by save_metadata. -/
def c2_payload : String := "os.system(attacker_command)"

/-- A vault state whose metadata file for id2 holds arbitrary non-record
content. -/
def c2_state : VaultState :=
  ⟨[("id2", ⟨⟨"pw", 3⟩, [1, 2], true⟩)], [("id2", .other c2_payload)], []⟩

/-- Claim C2, refuted by the code: main.py loads metadata with eval, so a
malformed record is executed as code rather than rejected; both
decrypt_file and list_files reach this outcome, while the loader the
specification requires rejects the same content with CorruptMetadata. -/
theorem c2_eval_executes_malformed_metadata :
    eval_metadata (.other c2_payload) = .executed c2_payload ∧
    load_metadata_spec (.other c2_payload) = .corruptMetadata ∧
    (decrypt_file c2_state "id2" "pw" none).2 =
      .error (.arbitraryExecution c2_payload) ∧
    list_files c2_state = .error (.arbitraryExecution c2_payload) :=
  ⟨rfl, rfl, rfl, rfl⟩

/-- Claim C7: when both the blob and the metadata record are present,
delete_file removes both and a subsequent decrypt_file on the id fails
with FileNotFoundError; when either is absent, delete_file itself fails
with FileNotFoundError and changes nothing. -/
theorem c7_delete_file_removes_pair
    (st : VaultState) (file_id password : String) :
    (∀ c mc, findEntry file_id st.files = some c →
      findEntry file_id st.metadata = some mc →
      (delete_file st file_id).2 = .ok () ∧
      findEntry file_id (delete_file st file_id).1.files = none ∧
      findEntry file_id (delete_file st file_id).1.metadata = none ∧
      decrypt_file (delete_file st file_id).1 file_id password none =
        ((delete_file st file_id).1, .error .fileNotFound)) ∧
    (findEntry file_id st.files = none ∨ findEntry file_id st.metadata = none →
      delete_file st file_id = (st, .error .fileNotFound)) := by
  constructor
  · intro c mc hc hm
    refine ⟨?_, ?_, ?_, ?_⟩ <;>
      simp [delete_file, hc, hm, findEntry_eraseEntry_same, decrypt_file]
  · intro h
    rcases h with h | h <;> simp [delete_file, h]

/-- A concrete populated vault state for the C7 witness. -/
def c7_state : VaultState :=
  ⟨[("x", ⟨⟨"p", 1⟩, [2], true⟩)],
    [("x", .record "a/x" "x" "t" 1 1)], []⟩

/-- Witness for C7: both branches applied at concrete states. -/
theorem c7_witness :
    ((delete_file c7_state "x").2 = .ok () ∧
      findEntry "x" (delete_file c7_state "x").1.files = none ∧
      findEntry "x" (delete_file c7_state "x").1.metadata = none ∧
      decrypt_file (delete_file c7_state "x").1 "x" "p" none =
        ((delete_file c7_state "x").1, .error .fileNotFound)) ∧
    delete_file (VaultState.mk [] [] []) "x" =
      (VaultState.mk [] [] [], .error .fileNotFound) :=
  ⟨(c7_delete_file_removes_pair c7_state "x" "p").1
      ⟨⟨"p", 1⟩, [2], true⟩ (.record "a/x" "x" "t" 1 1)
      (by decide) (by decide),
    (c7_delete_file_removes_pair (VaultState.mk [] [] []) "x" "p").2
      (Or.inl (by decide))⟩

/-- The persisted sync configuration of sync.py (sync_config.json). -/
structure SyncConfig where
  enabled : Bool
  provider : String
  settings : List (String × String)
  last_sync : Option Nat
  sync_interval : Nat
deriving DecidableEq, Repr

/-- The default configuration written by load_config on first use. -/
def default_config : SyncConfig :=
  ⟨false, "local", [], none, 60⟩

/-- Errors raised by the sync manager and the provider validators. -/
inductive SyncError
  | unknownProvider (name : String)
  | missingField (field : String)
  | connectivity (provider : String)
deriving DecidableEq, Repr

/-- The registered provider names of VaultSyncManager. -/
def provider_names : List String :=
  ["s3", "dropbox", "local"]

/-- LocalSyncProvider.validate_settings: fails when the sync_dir setting is
absent or empty (falsy); otherwise creates the directory and succeeds. -/
def validate_local (settings : List (String × String)) :
    Except SyncError Bool :=
  match findEntry "sync_dir" settings with
  | none => .error (.missingField "sync_dir")
  | some d => if d = "" then .error (.missingField "sync_dir") else .ok true

/-- S3SyncProvider.validate_settings: checks the four required fields in
order, then probes the bucket; connOk stands for the external probe
succeeding. -/
def validate_s3 (settings : List (String × String)) (connOk : Bool) :
    Except SyncError Bool :=
  if (findEntry "access_key" settings).isNone then
    .error (.missingField "access_key")
  else if (findEntry "secret_key" settings).isNone then
    .error (.missingField "secret_key")
  else if (findEntry "bucket" settings).isNone then
    .error (.missingField "bucket")
  else if (findEntry "region" settings).isNone then
    .error (.missingField "region")
  else if connOk then .ok true else .error (.connectivity "s3")

/-- DropboxSyncProvider.validate_settings: requires the access token, then
probes the account. -/
def validate_dropbox (settings : List (String × String)) (connOk : Bool) :
    Except SyncError Bool :=
  if (findEntry "access_token" settings).isNone then
    .error (.missingField "access_token")
  else if connOk then .ok true else .error (.connectivity "dropbox")

/-- Dispatch of validate_settings over the registered providers. -/
def validate_settings (provider : String) (settings : List (String × String))
    (connOk : Bool) : Except SyncError Bool :=
  if provider = "local" then validate_local settings
  else if provider = "s3" then validate_s3 settings connOk
  else validate_dropbox settings connOk

/-- The state a VaultSyncManager operates on: the in-memory config, the
persisted copy in sync_config.json, the id set of the local blob
directory, and the id set actually present at the provider remote. -/
structure MgrState where
  config : SyncConfig
  persisted : SyncConfig
  localIds : List String
  remoteIds : List String
deriving DecidableEq, Repr

/-- VaultSyncManager.configure from sync.py: after the provider-name check it
stores provider, settings and enabled true into the config and saves it,
and only then constructs the provider and validates its settings, so a
validation failure propagates after the save has happened. -/
def configure (st : MgrState) (provider : String)
    (settings : List (String × String)) (connOk : Bool) :
    MgrState × Except SyncError Bool :=
  if provider ∈ provider_names then
    let cfg := { st.config with
      provider := provider, settings := settings, enabled := true }
    let st' := { st with config := cfg, persisted := cfg }
    match validate_settings provider settings connOk with
    | .error e => (st', .error e)
    | .ok _ => (st', .ok true)
  else (st, .error (.unknownProvider provider))

/-- VaultSyncManager.disable: sets enabled to false and saves the config. -/
def disable (st : MgrState) : MgrState × Bool :=
  let cfg := { st.config with enabled := false }
  ({ st with config := cfg, persisted := cfg }, true)

/-- The upload half of the diff in sync: local ids not present remotely. -/
def files_to_upload (localFiles remoteFiles : List String) : List String :=
  localFiles.filter fun f => decide (f ∉ remoteFiles)

/-- The download half of the diff in sync: remote ids not present locally. -/
def files_to_download (localFiles remoteFiles : List String) : List String :=
  remoteFiles.filter fun f => decide (f ∉ localFiles)

/-- The stats dictionary returned by sync. -/
structure SyncStats where
  uploaded : Nat
  downloaded : Nat
  total_remote : Nat
  total_local : Nat
deriving DecidableEq, Repr

/-- S3SyncProvider.list_files: any exception while listing the bucket is
caught, printed, and an empty list is returned; listErr stands for such an
exception occurring. -/
def s3_list_files (remote : List String) (listErr : Bool) : List String :=
  if listErr then [] else remote

/-- DropboxSyncProvider.list_files: any exception while listing the folder is
caught, printed, and an empty list is returned. -/
def dropbox_list_files (remote : List String) (listErr : Bool) :
    List String :=
  if listErr then [] else remote

/-- LocalSyncProvider.list_files: an absent sync directory yields an empty
list; no exceptions are swallowed beyond that. -/
def local_list_files (remote : List String) (dirMissing : Bool) :
    List String :=
  if dirMissing then [] else remote

/-- Remote listing as seen by sync, dispatched over the provider tag. -/
def provider_list (provider : String) (remote : List String)
    (listErr : Bool) : List String :=
  if provider = "s3" then s3_list_files remote listErr
  else if provider = "dropbox" then dropbox_list_files remote listErr
  else local_list_files remote listErr

/-- VaultSyncManager.sync from sync.py: constructs the provider (error on an
unknown provider name), lists local and remote ids, uploads the local-only
ids to the remote, downloads the remote-only ids locally, and returns the
stats; the config is only read (for the provider tag), never consulted for
enabled and never written. -/
def sync (st : MgrState) (listErr : Bool) :
    MgrState × Except SyncError SyncStats :=
  if st.config.provider ∈ provider_names then
    let local_files := st.localIds
    let remote_files := provider_list st.config.provider st.remoteIds listErr
    let up := files_to_upload local_files remote_files
    let down := files_to_download local_files remote_files
    ({ st with
        remoteIds := st.remoteIds ++ up,
        localIds := st.localIds ++ down },
      .ok ⟨up.length, down.length, remote_files.length, local_files.length⟩)
  else (st, .error (.unknownProvider st.config.provider))

/-- A running background worker: the manager state plus the number of sync
cycles the worker has performed. -/
structure WorkerState where
  mgr : MgrState
  cycles : Nat
deriving DecidableEq, Repr

/-- The loop guard of the _sync_worker method: the loop is while True; it
never consults the configuration, in particular not the enabled flag. -/
def worker_continue (_cfg : SyncConfig) : Bool :=
  true

/-- One iteration of the _sync_worker body: under the lock it runs sync,
records last_sync and saves the config; an exception from the cycle is
caught and logged, leaving last_sync unchanged.  Either way the iteration
counts as one performed cycle. -/
def sync_worker_step (w : WorkerState) (now : Nat) (listErr : Bool) :
    WorkerState :=
  match sync w.mgr listErr with
  | (st', .ok _) =>
    let cfg := { st'.config with last_sync := some now }
    ⟨{ st' with config := cfg, persisted := cfg }, w.cycles + 1⟩
  | (st', .error _) => ⟨st', w.cycles + 1⟩

/-- A fresh manager state with the default (disabled) configuration. -/
def c4_state : MgrState :=
  ⟨default_config, default_config, [], []⟩

/-- Claim C4, refuted: configuring the local provider with empty settings
makes validation fail and the call raise, yet the persisted SyncConfig is
not unchanged — it has been replaced and has enabled set to true. -/
theorem c4_counterexample :
    (configure c4_state "local" [] true).2 =
      .error (.missingField "sync_dir") ∧
    (configure c4_state "local" [] true).1.persisted ≠ c4_state.persisted ∧
    (configure c4_state "local" [] true).1.persisted.enabled = true :=
  ⟨rfl, by decide, rfl⟩

/-- Claim C4 as amended: when validateSettings fails for a registered
provider, the whole configure call fails with that error, but the config
has already been saved with the new provider and settings and with
enabled set to true, so the failed call leaves sync enabled and the
persisted SyncConfig changed. -/
theorem c4_configure_persists_before_validation
    (st : MgrState) (provider : String) (settings : List (String × String))
    (connOk : Bool) (e : SyncError)
    (hp : provider ∈ provider_names)
    (hv : validate_settings provider settings connOk = .error e) :
    (configure st provider settings connOk).2 = .error e ∧
    (configure st provider settings connOk).1.persisted =
      { st.config with
          provider := provider, settings := settings, enabled := true } := by
  constructor <;> simp [configure, hp, hv]

/-- Witness for the amended C4 at a concrete state and settings map. -/
theorem c4_witness :
    ("local" : String) ∈ provider_names ∧
    validate_settings "local" [] true = .error (.missingField "sync_dir") ∧
    (configure c4_state "local" [] true).1.persisted =
      { c4_state.config with
          provider := "local", settings := [], enabled := true } :=
  ⟨by decide, rfl,
    (c4_configure_persists_before_validation c4_state "local" [] true
      (.missingField "sync_dir") (by decide) rfl).2⟩

theorem provider_list_no_error (p : String) (remote : List String) :
    provider_list p remote false = remote := by
  simp [provider_list, s3_list_files, dropbox_list_files, local_list_files]

theorem mem_files_to_upload {L R : List String} {a : String} :
    a ∈ files_to_upload L R ↔ a ∈ L ∧ a ∉ R := by
  simp [files_to_upload, List.mem_filter]

theorem mem_files_to_download {L R : List String} {a : String} :
    a ∈ files_to_download L R ↔ a ∈ R ∧ a ∉ L := by
  simp [files_to_download, List.mem_filter]

theorem length_filter_not_mem_eq_card (L R : List String) (hL : L.Nodup) :
    (L.filter fun f => decide (f ∉ R)).length =
      (L.toFinset \ R.toFinset).card := by
  rw [← List.toFinset_card_of_nodup (hL.filter _), List.toFinset_filter,
    Finset.sdiff_eq_filter]
  congr 1
  apply Finset.filter_congr
  intro x _
  simp

/-- Claim C5: on an error-free run, sync uploads exactly the local-only ids,
downloads exactly the remote-only ids, touches nothing present on both
sides, and the returned stats are the cardinality of the two set
differences together with the two totals. -/
theorem c5_sync_diff_correct
    (st : MgrState)
    (hp : st.config.provider ∈ provider_names)
    (hL : st.localIds.Nodup) (hR : st.remoteIds.Nodup) :
    (sync st false).2 =
      .ok ⟨(files_to_upload st.localIds st.remoteIds).length,
        (files_to_download st.localIds st.remoteIds).length,
        st.remoteIds.length, st.localIds.length⟩ ∧
    (∀ a, a ∈ files_to_upload st.localIds st.remoteIds ↔
      a ∈ st.localIds ∧ a ∉ st.remoteIds) ∧
    (∀ a, a ∈ files_to_download st.localIds st.remoteIds ↔
      a ∈ st.remoteIds ∧ a ∉ st.localIds) ∧
    (files_to_upload st.localIds st.remoteIds).length =
      (st.localIds.toFinset \ st.remoteIds.toFinset).card ∧
    (files_to_download st.localIds st.remoteIds).length =
      (st.remoteIds.toFinset \ st.localIds.toFinset).card := by
  refine ⟨?_, fun a => mem_files_to_upload, fun a => mem_files_to_download,
    length_filter_not_mem_eq_card _ _ hL,
    length_filter_not_mem_eq_card _ _ hR⟩
  simp [sync, hp, provider_list_no_error]

/-- A concrete manager state for the C5 witness: ids a, b local and b, c
remote, so exactly a is uploaded and exactly c is downloaded. -/
def c5_state : MgrState :=
  ⟨⟨true, "local", [("sync_dir", "m")], none, 60⟩,
    ⟨true, "local", [("sync_dir", "m")], none, 60⟩,
    ["a", "b"], ["b", "c"]⟩

/-- Witness for C5 at a concrete state. -/
theorem c5_witness :
    c5_state.config.provider ∈ provider_names ∧
    c5_state.localIds.Nodup ∧ c5_state.remoteIds.Nodup ∧
    (sync c5_state false).2 =
      .ok ⟨(files_to_upload c5_state.localIds c5_state.remoteIds).length,
        (files_to_download c5_state.localIds c5_state.remoteIds).length,
        c5_state.remoteIds.length, c5_state.localIds.length⟩ :=
  ⟨by decide, by decide, by decide,
    (c5_sync_diff_correct c5_state (by decide) (by decide) (by decide)).1⟩

/-- A manager state with an enabled config and one not-yet-synced local id,
as left behind by a configure of the local provider. -/
def c6_state : MgrState :=
  ⟨⟨true, "local", [("sync_dir", "m")], none, 60⟩,
    ⟨true, "local", [("sync_dir", "m")], none, 60⟩, ["a"], []⟩

/-- Claim C6, refuted by the code: the worker loop guard is while True and
never reads the configuration, so although disable does set enabled to
false and persist it, the guard still holds afterwards and the very next
worker iteration performs a further full sync cycle — here it uploads the
local id to the remote and records last_sync. -/
theorem c6_worker_keeps_running_after_disable :
    (∀ cfg, worker_continue cfg = true) ∧
    (disable c6_state).1.config.enabled = false ∧
    worker_continue (disable c6_state).1.config = true ∧
    (sync_worker_step ⟨(disable c6_state).1, 0⟩ 99 false).cycles = 1 ∧
    (sync_worker_step ⟨(disable c6_state).1, 0⟩ 99 false).mgr.remoteIds =
      ["a"] ∧
    (sync_worker_step ⟨(disable c6_state).1, 0⟩ 99
        false).mgr.config.last_sync = some 99 := by
  exact ⟨fun _ => rfl, rfl, rfl, by decide, by decide, by decide⟩

theorem mem_right_of_mem_diff_left (L R : List String) (a : String)
    (ha : a ∈ L ++ files_to_download L R) :
    a ∈ R ++ files_to_upload L R := by
  rcases List.mem_append.mp ha with h | h
  · by_cases hr : a ∈ R
    · exact List.mem_append.mpr (Or.inl hr)
    · exact List.mem_append.mpr (Or.inr (mem_files_to_upload.mpr ⟨h, hr⟩))
  · exact List.mem_append.mpr (Or.inl (mem_files_to_download.mp h).1)

theorem mem_left_of_mem_diff_right (L R : List String) (a : String)
    (ha : a ∈ R ++ files_to_upload L R) :
    a ∈ L ++ files_to_download L R := by
  rcases List.mem_append.mp ha with h | h
  · by_cases hl : a ∈ L
    · exact List.mem_append.mpr (Or.inl hl)
    · exact List.mem_append.mpr (Or.inr (mem_files_to_download.mpr ⟨h, hl⟩))
  · exact List.mem_append.mpr (Or.inl (mem_files_to_upload.mp h).1)

theorem diff_after_sync_nil (L R : List String) :
    files_to_upload (L ++ files_to_download L R)
        (R ++ files_to_upload L R) = [] ∧
    files_to_download (L ++ files_to_download L R)
        (R ++ files_to_upload L R) = [] := by
  constructor
  · refine List.filter_eq_nil_iff.mpr fun a ha => ?_
    simp only [decide_eq_true_eq, not_not]
    exact mem_right_of_mem_diff_left L R a ha
  · refine List.filter_eq_nil_iff.mpr fun a ha => ?_
    simp only [decide_eq_true_eq, not_not]
    exact mem_left_of_mem_diff_right L R a ha

/-- Claim C8: running sync again right after a successful error-free sync,
with no local or remote changes in between, uploads nothing and downloads
nothing — ids present on both sides are left alone regardless of
content. -/
theorem c8_sync_idempotent
    (st : MgrState) (hp : st.config.provider ∈ provider_names) :
    (sync (sync st false).1 false).2 =
      .ok ⟨0, 0, (sync st false).1.remoteIds.length,
        (sync st false).1.localIds.length⟩ := by
  have hst : (sync st false).1 =
      { st with
          remoteIds := st.remoteIds ++
            files_to_upload st.localIds st.remoteIds,
          localIds := st.localIds ++
            files_to_download st.localIds st.remoteIds } := by
    simp [sync, hp, provider_list_no_error]
  rw [hst]
  have hd := diff_after_sync_nil st.localIds st.remoteIds
  simp [sync, hp, provider_list_no_error, hd.1, hd.2]

/-- Witness for C8 at a concrete state. -/
theorem c8_witness :
    c5_state.config.provider ∈ provider_names ∧
    (sync (sync (MgrState.mk c5_state.config c5_state.persisted
        ["a", "b"] ["b", "c"]) false).1 false).2 =
      .ok ⟨0, 0,
        (sync (MgrState.mk c5_state.config c5_state.persisted
          ["a", "b"] ["b", "c"]) false).1.remoteIds.length,
        (sync (MgrState.mk c5_state.config c5_state.persisted
          ["a", "b"] ["b", "c"]) false).1.localIds.length⟩ :=
  ⟨by decide,
    c8_sync_idempotent
      (MgrState.mk c5_state.config c5_state.persisted ["a", "b"] ["b", "c"])
      (by decide)⟩

/-- Claim C9: when listing the remote raises for the object-store or
cloud-drive provider, the provider returns an empty id list instead, so
sync proceeds against an empty remote: it re-uploads every local id,
downloads nothing, and reports success with uploaded equal to the full
local count. -/
theorem c9_list_error_remote_treated_empty
    (st : MgrState)
    (hs : st.config.provider = "s3" ∨ st.config.provider = "dropbox") :
    provider_list st.config.provider st.remoteIds true = [] ∧
    (sync st true).2 =
      .ok ⟨st.localIds.length, 0, 0, st.localIds.length⟩ ∧
    (sync st true).1.remoteIds = st.remoteIds ++ st.localIds := by
  have hp : st.config.provider ∈ provider_names := by
    rcases hs with h | h <;> simp [h, provider_names]
  have hlist : provider_list st.config.provider st.remoteIds true = [] := by
    rcases hs with h | h <;>
      simp [provider_list, h, s3_list_files, dropbox_list_files]
  have hup : files_to_upload st.localIds [] = st.localIds := by
    simp [files_to_upload]
  have hdown : files_to_download st.localIds [] = [] := by
    simp [files_to_download]
  refine ⟨hlist, ?_, ?_⟩ <;> simp [sync, hp, hlist, hup, hdown]

/-- A concrete manager state on the s3 provider for the C9 witness. -/
def c9_state : MgrState :=
  ⟨⟨true, "s3", [("bucket", "b")], none, 60⟩,
    ⟨true, "s3", [("bucket", "b")], none, 60⟩, ["a", "b"], ["z"]⟩

/-- Witness for C9 at a concrete state whose remote listing fails. -/
theorem c9_witness :
    (c9_state.config.provider = "s3" ∨
      c9_state.config.provider = "dropbox") ∧
    (sync c9_state true).2 = .ok ⟨2, 0, 0, 2⟩ :=
  ⟨Or.inl rfl,
    (c9_list_error_remote_treated_empty c9_state (Or.inl rfl)).2.1⟩

/-- Claim C10: sync never consults the enabled flag and never writes the
configuration — a manual sync leaves both the in-memory and the persisted
SyncConfig (in particular last_sync) untouched and behaves identically
for any value of enabled — while one worker iteration records last_sync
after a successful cycle (and leaves it unchanged when the cycle
raised). -/
theorem c10_sync_config_frame
    (st : MgrState) (listErr b : Bool) (n now : Nat) :
    (sync st listErr).1.config = st.config ∧
    (sync st listErr).1.persisted = st.persisted ∧
    (sync { st with config := { st.config with enabled := b } }
        listErr).2 = (sync st listErr).2 ∧
    (sync { st with config := { st.config with enabled := b } }
        listErr).1.localIds = (sync st listErr).1.localIds ∧
    (sync { st with config := { st.config with enabled := b } }
        listErr).1.remoteIds = (sync st listErr).1.remoteIds ∧
    (sync_worker_step ⟨st, n⟩ now listErr).mgr.config.last_sync =
      (match (sync st listErr).2 with
        | .ok _ => some now
        | .error _ => st.config.last_sync) := by
  by_cases hp : st.config.provider ∈ provider_names <;>
    refine ⟨?_, ?_, ?_, ?_, ?_, ?_⟩ <;>
      simp [sync, sync_worker_step, hp]

end CryptoVault
